import Mathlib

/-!
Shallow embedding of `src/sistema_de_calificacion.py`, the weighted
test-scoring harness of the repository.  Python floats are modelled as
rationals (`ℚ`); the termination of a test body is modelled as a tagged
outcome (`ResultadoPrueba`), mirroring how `registrar_prueba` classifies the
exceptions it catches; Python lists are Lean lists and the name-indexed
`dict` is an association list looked up front to back.
-/

/-- How a test body terminates, as classified by
`GrupoCalificacion.registrar_prueba` (lines 39-55 of the source): normal
return, `NotImplementedError`, `AssertionError` with its message, or any
other exception with its type name and message. -/
inductive ResultadoPrueba where
  | normal
  | notImplementedError
  | assertionError (msg : String)
  | excepcion (tipo : String) (msg : String)
deriving DecidableEq

/-- State of `GrupoCalificacion` (lines 14-26): name, maximum weight, the
three outcome sequences of `(testName, awardedWeight)` pairs, and the
registration counter. -/
structure GrupoCalificacion where
  nombre : String
  valor_maximo : ℚ
  pruebas_pasadas : List (String × ℚ)
  pruebas_fallidas : List (String × ℚ)
  pruebas_no_implementadas : List (String × ℚ)
  num_pruebas_registradas : ℕ
deriving DecidableEq

/-- Model of `GrupoCalificacion.__init__` (lines 14-26): fresh group with empty
sequences and a zero counter. -/
def GrupoCalificacion.init (nombre : String) (valor_maximo : ℚ) :
    GrupoCalificacion :=
  { nombre := nombre
    valor_maximo := valor_maximo
    pruebas_pasadas := []
    pruebas_fallidas := []
    pruebas_no_implementadas := []
    num_pruebas_registradas := 0 }

/-- Model of `GrupoCalificacion.registrar_prueba` (lines 28-55): increment the
counter, then classify the test body's outcome into exactly one sequence,
always recording weight `0.0`, and return the pass/fail boolean. -/
def GrupoCalificacion.registrar_prueba (g : GrupoCalificacion)
    (nombre_prueba : String) (resultado : ResultadoPrueba) :
    GrupoCalificacion × Bool :=
  let g' := { g with num_pruebas_registradas := g.num_pruebas_registradas + 1 }
  match resultado with
  | .normal =>
      ({ g' with pruebas_pasadas := g'.pruebas_pasadas ++ [(nombre_prueba, 0)] },
       true)
  | .notImplementedError =>
      ({ g' with pruebas_no_implementadas :=
          g'.pruebas_no_implementadas ++ [(nombre_prueba, 0)] },
       false)
  | .assertionError _ =>
      ({ g' with pruebas_fallidas := g'.pruebas_fallidas ++ [(nombre_prueba, 0)] },
       false)
  | .excepcion _ _ =>
      ({ g' with pruebas_fallidas := g'.pruebas_fallidas ++ [(nombre_prueba, 0)] },
       false)

/-- Model of `GrupoCalificacion._recalcular_puntos` (lines 57-71): no-op when the
counter is zero, otherwise rewrite every entry of the three sequences with
weight `valor_maximo / num_pruebas_registradas`. -/
def GrupoCalificacion.recalcular_puntos (g : GrupoCalificacion) :
    GrupoCalificacion :=
  if g.num_pruebas_registradas = 0 then g
  else
    let valor_por_prueba := g.valor_maximo / g.num_pruebas_registradas
    { g with
      pruebas_pasadas := g.pruebas_pasadas.map (fun p => (p.1, valor_por_prueba))
      pruebas_fallidas := g.pruebas_fallidas.map (fun p => (p.1, valor_por_prueba))
      pruebas_no_implementadas :=
        g.pruebas_no_implementadas.map (fun p => (p.1, valor_por_prueba)) }

/-- Model of `GrupoCalificacion.calcular_nota` (lines 73-80): sum of the awarded
weights of the passed entries, paired with the maximum weight. -/
def GrupoCalificacion.calcular_nota (g : GrupoCalificacion) : ℚ × ℚ :=
  ((g.pruebas_pasadas.map Prod.snd).sum, g.valor_maximo)

/-- The dictionary returned by `GrupoCalificacion.obtener_estadisticas`
(lines 82-106), as a record. -/
structure Estadisticas where
  nombre : String
  nota_obtenida : ℚ
  valor_maximo : ℚ
  total_pruebas : ℕ
  pasadas : ℕ
  fallidas : ℕ
  no_implementadas : ℕ
  porcentaje : ℚ
deriving DecidableEq

/-- Model of `GrupoCalificacion.obtener_estadisticas` (lines 82-106): snapshot of the
group, with `porcentaje = nota / valor_maximo * 100` guarded to `0` when
`valor_maximo` is not positive. -/
def GrupoCalificacion.obtener_estadisticas (g : GrupoCalificacion) :
    Estadisticas :=
  let nota_obtenida := g.calcular_nota.1
  let total_pruebas := g.pruebas_pasadas.length + g.pruebas_fallidas.length
    + g.pruebas_no_implementadas.length
  { nombre := g.nombre
    nota_obtenida := nota_obtenida
    valor_maximo := g.valor_maximo
    total_pruebas := total_pruebas
    pasadas := g.pruebas_pasadas.length
    fallidas := g.pruebas_fallidas.length
    no_implementadas := g.pruebas_no_implementadas.length
    porcentaje :=
      if g.valor_maximo > 0 then nota_obtenida / g.valor_maximo * 100 else 0 }

/-- Combined length of the three outcome sequences, the quantity computed as
`total_pruebas` inside `obtener_estadisticas` (lines 89-93). -/
def GrupoCalificacion.total_entradas (g : GrupoCalificacion) : ℕ :=
  g.pruebas_pasadas.length + g.pruebas_fallidas.length
    + g.pruebas_no_implementadas.length

/-- Register a batch of tests in order, threading the group state
(repeated calls to `registrar_prueba`, discarding the booleans). -/
def GrupoCalificacion.registrar_pruebas (g : GrupoCalificacion)
    (pruebas : List (String × ResultadoPrueba)) : GrupoCalificacion :=
  pruebas.foldl (fun g p => (g.registrar_prueba p.1 p.2).1) g

/-- A state-mutating operation on a group: one registration, or one
recalculation.  Sequences of these generate every reachable group state. -/
inductive OperacionGrupo where
  | registrar (nombre : String) (resultado : ResultadoPrueba)
  | recalcular
deriving DecidableEq

/-- Apply one operation to a group. -/
def GrupoCalificacion.aplicar (g : GrupoCalificacion) :
    OperacionGrupo → GrupoCalificacion
  | .registrar n r => (g.registrar_prueba n r).1
  | .recalcular => g.recalcular_puntos

/-- Apply a sequence of operations to a group, in order. -/
def GrupoCalificacion.ejecutar (g : GrupoCalificacion)
    (ops : List OperacionGrupo) : GrupoCalificacion :=
  ops.foldl GrupoCalificacion.aplicar g

/-- State of `SistemaCalificacion` (lines 150-153): the insertion-ordered
list of groups and the name-indexed dictionary.  In Python both containers
hold the same group objects; here the dictionary holds its own copies and
every operation keeps the two in sync, mirroring the aliasing. -/
structure SistemaCalificacion where
  grupos : List GrupoCalificacion
  grupos_por_nombre : List (String × GrupoCalificacion)
deriving DecidableEq

/-- Model of `SistemaCalificacion.__init__` (lines 150-153): empty system. -/
def SistemaCalificacion.init : SistemaCalificacion :=
  { grupos := [], grupos_por_nombre := [] }

/-- Front-to-back lookup in the association list modelling the Python
`dict` `_grupos_por_nombre` (keys are unique on every reachable state,
so first match is the match). -/
def buscarGrupo : List (String × GrupoCalificacion) → String →
    Option GrupoCalificacion
  | [], _ => none
  | (k, v) :: resto, nombre =>
      if k = nombre then some v else buscarGrupo resto nombre

/-- Model of `SistemaCalificacion.crear_grupo` (lines 155-174): return the existing
group on a name hit (ignoring the supplied weight), otherwise construct a
new group, append it to both containers and return it. -/
def SistemaCalificacion.crear_grupo (s : SistemaCalificacion) (nombre : String)
    (valor_maximo : ℚ) : SistemaCalificacion × GrupoCalificacion :=
  match buscarGrupo s.grupos_por_nombre nombre with
  | some grupo => (s, grupo)
  | none =>
      let grupo := GrupoCalificacion.init nombre valor_maximo
      ({ grupos := s.grupos ++ [grupo]
         grupos_por_nombre := s.grupos_por_nombre ++ [(nombre, grupo)] },
       grupo)

/-- Model of `SistemaCalificacion.limpiar` (lines 176-179): clear both containers. -/
def SistemaCalificacion.limpiar (_ : SistemaCalificacion) :
    SistemaCalificacion :=
  SistemaCalificacion.init

/-- Model of `SistemaCalificacion.calcular_nota_total` (lines 181-189): sum of each
group's earned score and sum of each group's maximum weight. -/
def SistemaCalificacion.calcular_nota_total (s : SistemaCalificacion) :
    ℚ × ℚ :=
  ((s.grupos.map (fun g => g.calcular_nota.1)).sum,
   (s.grupos.map (fun g => g.calcular_nota.2)).sum)

/-- The motivational message printed by `mostrar_resumen_completo`
(lines 214-224), keyed on the global percentage. -/
def mensaje_motivacional (porcentaje_global : ℚ) : String :=
  if porcentaje_global = 100 then
    "🌟 ¡PERFECTO! Todas las funciones implementadas correctamente."
  else if porcentaje_global ≥ 90 then "🎉 ¡EXCELENTE! Casi perfecto."
  else if porcentaje_global ≥ 75 then "👏 ¡MUY BIEN! Buen trabajo."
  else if porcentaje_global ≥ 50 then "👍 Buen progreso. Sigue adelante."
  else "💪 Continúa trabajando. ¡Tú puedes!"

/-- The motivational message emitted by `mostrar_resumen_completo`
(lines 205-224): only produced when the total maximum weight is positive,
keyed on `nota_total / valor_total * 100`. -/
def SistemaCalificacion.mensaje_resumen (s : SistemaCalificacion) :
    Option String :=
  let nota_total := s.calcular_nota_total.1
  let valor_total := s.calcular_nota_total.2
  if valor_total > 0 then some (mensaje_motivacional (nota_total / valor_total * 100))
  else none

/-- The recalculation pass at the top of `mostrar_resumen_por_seccion`
(lines 234-236): every group object is recalculated; since the Python
containers alias the same objects, both views are updated. -/
def SistemaCalificacion.recalcular_todos (s : SistemaCalificacion) :
    SistemaCalificacion :=
  { grupos := s.grupos.map GrupoCalificacion.recalcular_puntos
    grupos_por_nombre :=
      s.grupos_por_nombre.map (fun kv => (kv.1, kv.2.recalcular_puntos)) }

/-- Bucket "A" of `mostrar_resumen_por_seccion` (line 239): groups whose
name does not start with the literal "Parte 2". -/
def SistemaCalificacion.parte1 (s : SistemaCalificacion) :
    List GrupoCalificacion :=
  s.grupos.filter (fun g => !(g.nombre.startsWith "Parte 2"))

/-- Bucket "B" of `mostrar_resumen_por_seccion` (line 240): groups whose
name starts with the literal "Parte 2". -/
def SistemaCalificacion.parte2 (s : SistemaCalificacion) :
    List GrupoCalificacion :=
  s.grupos.filter (fun g => g.nombre.startsWith "Parte 2")

/-- Model of `nota_seccion` inside `mostrar_seccion` (line 246): a bucket's summed
earned score. -/
def nota_seccion (grupos : List GrupoCalificacion) : ℚ :=
  (grupos.map (fun g => g.calcular_nota.1)).sum

/-- Model of `valor_seccion` inside `mostrar_seccion` (line 247): a bucket's summed
maximum weight. -/
def valor_seccion (grupos : List GrupoCalificacion) : ℚ :=
  (grupos.map (fun g => g.calcular_nota.2)).sum

/-- Model of `porcentaje_global` of the by-section report (line 280): guarded to `0`
when the total maximum weight is not positive. -/
def SistemaCalificacion.porcentaje_global_seccion (s : SistemaCalificacion) :
    ℚ :=
  let nota_total := s.calcular_nota_total.1
  let valor_total := s.calcular_nota_total.2
  if valor_total > 0 then nota_total / valor_total * 100 else 0

/-! ### Helper lemmas about single operations -/

theorem registrar_prueba_num (g : GrupoCalificacion) (n : String)
    (r : ResultadoPrueba) :
    ((g.registrar_prueba n r).1).num_pruebas_registradas
      = g.num_pruebas_registradas + 1 := by
  cases r <;> rfl

theorem registrar_prueba_valor (g : GrupoCalificacion) (n : String)
    (r : ResultadoPrueba) :
    ((g.registrar_prueba n r).1).valor_maximo = g.valor_maximo := by
  cases r <;> rfl

theorem recalcular_puntos_num (g : GrupoCalificacion) :
    g.recalcular_puntos.num_pruebas_registradas = g.num_pruebas_registradas := by
  by_cases h : g.num_pruebas_registradas = 0 <;>
    simp [GrupoCalificacion.recalcular_puntos, h]

theorem recalcular_puntos_valor (g : GrupoCalificacion) :
    g.recalcular_puntos.valor_maximo = g.valor_maximo := by
  by_cases h : g.num_pruebas_registradas = 0 <;>
    simp [GrupoCalificacion.recalcular_puntos, h]

theorem aplicar_invariante (g : GrupoCalificacion) (op : OperacionGrupo)
    (h : g.total_entradas = g.num_pruebas_registradas) :
    (g.aplicar op).total_entradas = (g.aplicar op).num_pruebas_registradas := by
  cases op with
  | registrar n r =>
      cases r <;>
        simp [GrupoCalificacion.aplicar, GrupoCalificacion.registrar_prueba,
          GrupoCalificacion.total_entradas] at h ⊢ <;> omega
  | recalcular =>
      by_cases h0 : g.num_pruebas_registradas = 0
      · simpa [GrupoCalificacion.aplicar, GrupoCalificacion.recalcular_puntos, h0,
          GrupoCalificacion.total_entradas] using h
      · simp [GrupoCalificacion.aplicar, GrupoCalificacion.recalcular_puntos, h0,
          GrupoCalificacion.total_entradas] at h ⊢
        omega

theorem ejecutar_invariante (ops : List OperacionGrupo) (g : GrupoCalificacion)
    (h : g.total_entradas = g.num_pruebas_registradas) :
    (g.ejecutar ops).total_entradas
      = (g.ejecutar ops).num_pruebas_registradas := by
  induction ops generalizing g with
  | nil => simpa [GrupoCalificacion.ejecutar] using h
  | cons op ops ih =>
      simp only [GrupoCalificacion.ejecutar, List.foldl_cons] at *
      exact ih _ (aplicar_invariante g op h)

/-! ### Claims C3, C6, C9 -/

/-- C3: `registrar_prueba` classifies every outcome of the test body into
exactly one sequence and returns a boolean: normal termination appends
`(testName, 0.0)` to the passed sequence and returns `true`; a
`NotImplementedError` appends to the not-implemented sequence and returns
`false`; an `AssertionError` appends to the failed sequence and returns
`false`; any other exception appends to the failed sequence and returns
`false`.  The counter increments in every case, and — the outcome type being
exhaustive — no failure of the test body ever escapes to the caller. -/
theorem c3_clasificacion (g : GrupoCalificacion) (n : String)
    (r : ResultadoPrueba) :
    ((g.registrar_prueba n r).1).num_pruebas_registradas
      = g.num_pruebas_registradas + 1 ∧
    (r = .normal →
      (g.registrar_prueba n r).1.pruebas_pasadas = g.pruebas_pasadas ++ [(n, 0)] ∧
      (g.registrar_prueba n r).1.pruebas_fallidas = g.pruebas_fallidas ∧
      (g.registrar_prueba n r).1.pruebas_no_implementadas
        = g.pruebas_no_implementadas ∧
      (g.registrar_prueba n r).2 = true) ∧
    (r = .notImplementedError →
      (g.registrar_prueba n r).1.pruebas_no_implementadas
        = g.pruebas_no_implementadas ++ [(n, 0)] ∧
      (g.registrar_prueba n r).1.pruebas_pasadas = g.pruebas_pasadas ∧
      (g.registrar_prueba n r).1.pruebas_fallidas = g.pruebas_fallidas ∧
      (g.registrar_prueba n r).2 = false) ∧
    (∀ msg, r = .assertionError msg →
      (g.registrar_prueba n r).1.pruebas_fallidas = g.pruebas_fallidas ++ [(n, 0)] ∧
      (g.registrar_prueba n r).1.pruebas_pasadas = g.pruebas_pasadas ∧
      (g.registrar_prueba n r).1.pruebas_no_implementadas
        = g.pruebas_no_implementadas ∧
      (g.registrar_prueba n r).2 = false) ∧
    (∀ tipo msg, r = .excepcion tipo msg →
      (g.registrar_prueba n r).1.pruebas_fallidas = g.pruebas_fallidas ++ [(n, 0)] ∧
      (g.registrar_prueba n r).1.pruebas_pasadas = g.pruebas_pasadas ∧
      (g.registrar_prueba n r).1.pruebas_no_implementadas
        = g.pruebas_no_implementadas ∧
      (g.registrar_prueba n r).2 = false) := by
  cases r <;> simp [GrupoCalificacion.registrar_prueba]

/-- Witness for C3 at a concrete group and outcome. -/
theorem c3_clasificacion_witness :
    ((GrupoCalificacion.init "g" 1).registrar_prueba "t" .normal).1.pruebas_pasadas
      = (GrupoCalificacion.init "g" 1).pruebas_pasadas ++ [("t", 0)] ∧
    ((GrupoCalificacion.init "g" 1).registrar_prueba "t" .normal).2 = true :=
  ⟨((c3_clasificacion (GrupoCalificacion.init "g" 1) "t" .normal).2.1 rfl).1,
   ((c3_clasificacion (GrupoCalificacion.init "g" 1) "t" .normal).2.1 rfl).2.2.2⟩

/-- C6: recalculation is idempotent — a second `recalcular_puntos` with no
intervening registration changes nothing — and with a zero registration
counter it is a no-op leaving the group (in particular every entry weight)
unchanged. -/
theorem c6_recalculo_idempotente (g : GrupoCalificacion) :
    g.recalcular_puntos.recalcular_puntos = g.recalcular_puntos ∧
    (g.num_pruebas_registradas = 0 → g.recalcular_puntos = g) := by
  constructor
  · by_cases h : g.num_pruebas_registradas = 0
    · simp [GrupoCalificacion.recalcular_puntos, h]
    · simp [GrupoCalificacion.recalcular_puntos, h, List.map_map, Function.comp]
  · intro h
    simp [GrupoCalificacion.recalcular_puntos, h]

/-- Witness for C6 at concrete groups. -/
theorem c6_recalculo_idempotente_witness :
    (GrupoCalificacion.init "g" 5).recalcular_puntos.recalcular_puntos
      = (GrupoCalificacion.init "g" 5).recalcular_puntos ∧
    (GrupoCalificacion.init "g" 5).recalcular_puntos
      = GrupoCalificacion.init "g" 5 :=
  ⟨(c6_recalculo_idempotente _).1, (c6_recalculo_idempotente _).2 rfl⟩

/-- C9: on every reachable group state — any sequence of registrations
(duplicate names included) and recalculations applied to a fresh group —
the registration counter equals the combined length of the passed, failed
and not-implemented sequences. -/
theorem c9_contador_igual_entradas (nombre : String) (M : ℚ)
    (ops : List OperacionGrupo) :
    ((GrupoCalificacion.init nombre M).ejecutar ops).pruebas_pasadas.length
      + ((GrupoCalificacion.init nombre M).ejecutar ops).pruebas_fallidas.length
      + ((GrupoCalificacion.init nombre M).ejecutar ops).pruebas_no_implementadas.length
      = ((GrupoCalificacion.init nombre M).ejecutar ops).num_pruebas_registradas :=
  ejecutar_invariante ops _ rfl

/-! ### Helper lemmas about batches of registrations -/

theorem registrar_prueba_total (g : GrupoCalificacion) (n : String)
    (r : ResultadoPrueba) :
    ((g.registrar_prueba n r).1).total_entradas = g.total_entradas + 1 := by
  cases r <;>
    simp [GrupoCalificacion.registrar_prueba, GrupoCalificacion.total_entradas] <;>
    omega

theorem registrar_prueba_pasadas_ne (g : GrupoCalificacion) (n : String)
    (r : ResultadoPrueba) (h : r ≠ .normal) :
    ((g.registrar_prueba n r).1).pruebas_pasadas = g.pruebas_pasadas := by
  cases r with
  | normal => exact absurd rfl h
  | notImplementedError => rfl
  | assertionError msg => rfl
  | excepcion tipo msg => rfl

theorem registrar_pruebas_cons (g : GrupoCalificacion) (p : String × ResultadoPrueba)
    (ps : List (String × ResultadoPrueba)) :
    g.registrar_pruebas (p :: ps)
      = ((g.registrar_prueba p.1 p.2).1).registrar_pruebas ps := rfl

theorem registrar_pruebas_num (pruebas : List (String × ResultadoPrueba))
    (g : GrupoCalificacion) :
    (g.registrar_pruebas pruebas).num_pruebas_registradas
      = g.num_pruebas_registradas + pruebas.length := by
  induction pruebas generalizing g with
  | nil => rfl
  | cons p ps ih =>
      rw [registrar_pruebas_cons, ih, registrar_prueba_num]
      simp only [List.length_cons]
      omega

theorem registrar_pruebas_valor (pruebas : List (String × ResultadoPrueba))
    (g : GrupoCalificacion) :
    (g.registrar_pruebas pruebas).valor_maximo = g.valor_maximo := by
  induction pruebas generalizing g with
  | nil => rfl
  | cons p ps ih => rw [registrar_pruebas_cons, ih, registrar_prueba_valor]

theorem registrar_pruebas_total (pruebas : List (String × ResultadoPrueba))
    (g : GrupoCalificacion) :
    (g.registrar_pruebas pruebas).total_entradas
      = g.total_entradas + pruebas.length := by
  induction pruebas generalizing g with
  | nil => rfl
  | cons p ps ih =>
      rw [registrar_pruebas_cons, ih, registrar_prueba_total]
      simp only [List.length_cons]
      omega

theorem registrar_pruebas_pasadas_ne (pruebas : List (String × ResultadoPrueba))
    (g : GrupoCalificacion)
    (h : ∀ p ∈ pruebas, p.2 ≠ ResultadoPrueba.normal) :
    (g.registrar_pruebas pruebas).pruebas_pasadas = g.pruebas_pasadas := by
  induction pruebas generalizing g with
  | nil => rfl
  | cons p ps ih =>
      rw [registrar_pruebas_cons,
        ih _ (fun q hq => h q (List.mem_cons_of_mem _ hq)),
        registrar_prueba_pasadas_ne g p.1 p.2 (h p (List.mem_cons_self _ _))]

theorem aplicar_valor (g : GrupoCalificacion) (op : OperacionGrupo) :
    (g.aplicar op).valor_maximo = g.valor_maximo := by
  cases op with
  | registrar n r => exact registrar_prueba_valor g n r
  | recalcular => exact recalcular_puntos_valor g

theorem ejecutar_valor (ops : List OperacionGrupo) (g : GrupoCalificacion) :
    (g.ejecutar ops).valor_maximo = g.valor_maximo := by
  induction ops generalizing g with
  | nil => rfl
  | cons op ops ih =>
      simp only [GrupoCalificacion.ejecutar, List.foldl_cons] at *
      rw [ih, aplicar_valor]

theorem sum_snd_map_const (l : List (String × ℚ)) (v : ℚ) :
    ((l.map (fun p => (p.1, v))).map Prod.snd).sum = l.length * v := by
  induction l with
  | nil => simp
  | cons a l ih =>
      simp only [List.map_cons, List.sum_cons, List.length_cons, ih]
      push_cast
      ring

/-! ### Claims C1, C2, C10 -/

/-- C1: registering `N ≥ 1` tests (no duplicate names) into a fresh group
with maximum weight `M` and then recalculating gives every entry across the
passed, failed and not-implemented sequences the weight `M / N`, and the
weights over all `N` entries sum to exactly `M`. -/
theorem c1_pesos_equitativos (nombre : String) (M : ℚ)
    (pruebas : List (String × ResultadoPrueba))
    (hN1 : 1 ≤ pruebas.length)
    (_hnd : (pruebas.map Prod.fst).Nodup)
    (g : GrupoCalificacion)
    (hg : g = ((GrupoCalificacion.init nombre M).registrar_pruebas
      pruebas).recalcular_puntos) :
    (∀ e ∈ g.pruebas_pasadas, e.2 = M / (pruebas.length : ℚ)) ∧
    (∀ e ∈ g.pruebas_fallidas, e.2 = M / (pruebas.length : ℚ)) ∧
    (∀ e ∈ g.pruebas_no_implementadas, e.2 = M / (pruebas.length : ℚ)) ∧
    (g.pruebas_pasadas.map Prod.snd).sum
      + (g.pruebas_fallidas.map Prod.snd).sum
      + (g.pruebas_no_implementadas.map Prod.snd).sum = M := by
  subst hg
  set g0 := (GrupoCalificacion.init nombre M).registrar_pruebas pruebas with hg0
  have hnum : g0.num_pruebas_registradas = pruebas.length := by
    have h := registrar_pruebas_num pruebas (GrupoCalificacion.init nombre M)
    simpa [GrupoCalificacion.init] using h
  have hval : g0.valor_maximo = M :=
    registrar_pruebas_valor pruebas (GrupoCalificacion.init nombre M)
  have htot : g0.pruebas_pasadas.length + g0.pruebas_fallidas.length
      + g0.pruebas_no_implementadas.length = pruebas.length := by
    have h := registrar_pruebas_total pruebas (GrupoCalificacion.init nombre M)
    simpa [GrupoCalificacion.init, GrupoCalificacion.total_entradas] using h
  have hne : g0.num_pruebas_registradas ≠ 0 := by omega
  have hcast : ((pruebas.length : ℕ) : ℚ) ≠ 0 := by
    exact_mod_cast (by omega : pruebas.length ≠ 0)
  simp only [GrupoCalificacion.recalcular_puntos]
  rw [if_neg hne]
  refine ⟨?_, ?_, ?_, ?_⟩
  · intro e he
    obtain ⟨p, _, rfl⟩ := List.mem_map.1 he
    simp [hval, hnum]
  · intro e he
    obtain ⟨p, _, rfl⟩ := List.mem_map.1 he
    simp [hval, hnum]
  · intro e he
    obtain ⟨p, _, rfl⟩ := List.mem_map.1 he
    simp [hval, hnum]
  · dsimp only
    simp only [hval, hnum]
    rw [sum_snd_map_const, sum_snd_map_const, sum_snd_map_const]
    have hlen : (g0.pruebas_pasadas.length : ℚ) + g0.pruebas_fallidas.length
        + g0.pruebas_no_implementadas.length = (pruebas.length : ℚ) := by
      exact_mod_cast htot
    calc (g0.pruebas_pasadas.length : ℚ) * (M / (pruebas.length : ℚ))
          + (g0.pruebas_fallidas.length : ℚ) * (M / (pruebas.length : ℚ))
          + (g0.pruebas_no_implementadas.length : ℚ) * (M / (pruebas.length : ℚ))
        = ((g0.pruebas_pasadas.length : ℚ) + g0.pruebas_fallidas.length
            + g0.pruebas_no_implementadas.length) * (M / (pruebas.length : ℚ)) := by
          ring
      _ = (pruebas.length : ℚ) * (M / (pruebas.length : ℚ)) := by rw [hlen]
      _ = M := by field_simp

/-- Concrete instance of C1: two tests, weight 10, all hypotheses hold and
the recalculated weights sum to 10. -/
def pruebasEjemploC1 : List (String × ResultadoPrueba) :=
  [("a", .normal), ("b", .notImplementedError)]

/-- The group of the C1 witness: both example tests registered, then
recalculated. -/
def grupoEjemploC1 : GrupoCalificacion :=
  ((GrupoCalificacion.init "g" 10).registrar_pruebas
    pruebasEjemploC1).recalcular_puntos

/-- Witness for C1 at the concrete two-test group. -/
theorem c1_pesos_equitativos_witness :
    1 ≤ pruebasEjemploC1.length ∧
    (grupoEjemploC1.pruebas_pasadas.map Prod.snd).sum
      + (grupoEjemploC1.pruebas_fallidas.map Prod.snd).sum
      + (grupoEjemploC1.pruebas_no_implementadas.map Prod.snd).sum = 10 :=
  ⟨by decide,
   (c1_pesos_equitativos "g" 10 pruebasEjemploC1 (by decide) (by decide)
      grupoEjemploC1 rfl).2.2.2⟩

/-- C2: `calcular_nota` returns the pair of the summed weights of the
passed entries only and the maximum weight; consequently a group whose
registrations are all failing or not-implemented tests earns `0`, even
after a recalculation has assigned those entries nonzero weight. -/
theorem c2_nota_solo_pasadas (nombre : String) (M : ℚ)
    (pruebas : List (String × ResultadoPrueba))
    (hfail : ∀ p ∈ pruebas, p.2 ≠ ResultadoPrueba.normal) :
    (∀ g : GrupoCalificacion,
      g.calcular_nota = ((g.pruebas_pasadas.map Prod.snd).sum, g.valor_maximo)) ∧
    (((GrupoCalificacion.init nombre M).registrar_pruebas
        pruebas).recalcular_puntos).calcular_nota.1 = 0 := by
  have hpas : ((GrupoCalificacion.init nombre M).registrar_pruebas
      pruebas).pruebas_pasadas = [] :=
    registrar_pruebas_pasadas_ne pruebas _ hfail
  refine ⟨fun g => rfl, ?_⟩
  by_cases h0 : ((GrupoCalificacion.init nombre M).registrar_pruebas
      pruebas).num_pruebas_registradas = 0 <;>
    simp [GrupoCalificacion.recalcular_puntos, h0, GrupoCalificacion.calcular_nota,
      hpas]

/-- Witness for C2: a group holding one not-implemented and one failing
test earns `0` after recalculation despite maximum weight 10. -/
theorem c2_nota_solo_pasadas_witness :
    (((GrupoCalificacion.init "g" 10).registrar_pruebas
        [("a", ResultadoPrueba.notImplementedError),
         ("b", ResultadoPrueba.assertionError "boom")]).recalcular_puntos).calcular_nota.1
      = 0 :=
  (c2_nota_solo_pasadas "g" 10
    [("a", ResultadoPrueba.notImplementedError),
     ("b", ResultadoPrueba.assertionError "boom")] (by decide)).2

/-- C10: for a reachable group with nonnegative maximum weight `M`, the
earned score immediately after a recalculation satisfies
`0 ≤ earned ≤ M`. -/
theorem c10_nota_acotada (nombre : String) (M : ℚ) (ops : List OperacionGrupo)
    (hM : 0 ≤ M) (g : GrupoCalificacion)
    (hg : g = ((GrupoCalificacion.init nombre M).ejecutar
      ops).recalcular_puntos) :
    0 ≤ g.calcular_nota.1 ∧ g.calcular_nota.1 ≤ M := by
  subst hg
  have hval := ejecutar_valor ops (GrupoCalificacion.init nombre M)
  have hinv := ejecutar_invariante ops (GrupoCalificacion.init nombre M) rfl
  set g1 := (GrupoCalificacion.init nombre M).ejecutar ops with hg1
  simp only [GrupoCalificacion.init] at hval
  simp only [GrupoCalificacion.total_entradas] at hinv
  by_cases h0 : g1.num_pruebas_registradas = 0
  · have hpas : g1.pruebas_pasadas = [] := by
      rw [h0] at hinv
      exact List.length_eq_zero.mp (by omega)
    simp [GrupoCalificacion.recalcular_puntos, h0, GrupoCalificacion.calcular_nota,
      hpas, hM]
  · have hvpos : (0 : ℚ) ≤ M / (g1.num_pruebas_registradas : ℚ) := by
      apply div_nonneg hM
      exact_mod_cast Nat.zero_le _
    simp only [GrupoCalificacion.recalcular_puntos, if_neg h0,
      GrupoCalificacion.calcular_nota, hval, sum_snd_map_const]
    constructor
    · exact mul_nonneg (by exact_mod_cast Nat.zero_le _) hvpos
    · have hle : (g1.pruebas_pasadas.length : ℚ)
          ≤ (g1.num_pruebas_registradas : ℚ) := by
        exact_mod_cast (by omega : g1.pruebas_pasadas.length
          ≤ g1.num_pruebas_registradas)
      have hcast : ((g1.num_pruebas_registradas : ℕ) : ℚ) ≠ 0 := by
        exact_mod_cast h0
      calc (g1.pruebas_pasadas.length : ℚ)
            * (M / (g1.num_pruebas_registradas : ℚ))
          ≤ (g1.num_pruebas_registradas : ℚ)
            * (M / (g1.num_pruebas_registradas : ℚ)) :=
            mul_le_mul_of_nonneg_right hle hvpos
        _ = M := by field_simp

/-- Witness for C10 at a concrete reachable group. -/
theorem c10_nota_acotada_witness :
    0 ≤ (((GrupoCalificacion.init "g" 3).ejecutar
        [OperacionGrupo.registrar "a" ResultadoPrueba.normal,
         OperacionGrupo.recalcular]).recalcular_puntos).calcular_nota.1 ∧
    (((GrupoCalificacion.init "g" 3).ejecutar
        [OperacionGrupo.registrar "a" ResultadoPrueba.normal,
         OperacionGrupo.recalcular]).recalcular_puntos).calcular_nota.1 ≤ 3 :=
  c10_nota_acotada "g" 3
    [OperacionGrupo.registrar "a" ResultadoPrueba.normal,
     OperacionGrupo.recalcular] (by norm_num) _ rfl

/-! ### Claims C4, C5, C7, C8 -/

theorem buscarGrupo_append_none (d : List (String × GrupoCalificacion))
    (nombre : String) (d2 : List (String × GrupoCalificacion))
    (h : buscarGrupo d nombre = none) :
    buscarGrupo (d ++ d2) nombre = buscarGrupo d2 nombre := by
  induction d with
  | nil => rfl
  | cons kv resto ih =>
      obtain ⟨k, v⟩ := kv
      by_cases hk : k = nombre
      · simp [buscarGrupo, hk] at h
      · rw [List.cons_append]
        simp only [buscarGrupo, if_neg hk] at h ⊢
        exact ih h

/-- C4: calling `crear_grupo` twice with the same name returns the same
group both times, the second call leaves the system's list and index
unchanged, and the second call's weight argument has no effect on the
existing group's maximum weight. -/
theorem c4_crear_grupo_idempotente (s : SistemaCalificacion) (nombre : String)
    (w1 w2 : ℚ) :
    (((s.crear_grupo nombre w1).1).crear_grupo nombre w2).2
      = (s.crear_grupo nombre w1).2 ∧
    (((s.crear_grupo nombre w1).1).crear_grupo nombre w2).1
      = (s.crear_grupo nombre w1).1 ∧
    ((((s.crear_grupo nombre w1).1).crear_grupo nombre w2).2).valor_maximo
      = ((s.crear_grupo nombre w1).2).valor_maximo := by
  have key : ∀ w : ℚ, ∀ t : SistemaCalificacion, ∀ g : GrupoCalificacion,
      buscarGrupo t.grupos_por_nombre nombre = some g →
      t.crear_grupo nombre w = (t, g) := by
    intro w t g h
    simp [SistemaCalificacion.crear_grupo, h]
  have hpost : buscarGrupo ((s.crear_grupo nombre w1).1).grupos_por_nombre nombre
      = some ((s.crear_grupo nombre w1).2) := by
    rcases hb : buscarGrupo s.grupos_por_nombre nombre with _ | g
    · simp only [SistemaCalificacion.crear_grupo, hb]
      rw [buscarGrupo_append_none _ _ _ hb]
      simp [buscarGrupo]
    · simp only [SistemaCalificacion.crear_grupo, hb]
  have h2 := key w2 _ _ hpost
  exact ⟨by rw [h2], by rw [h2], by rw [h2]⟩

/-- C5: percentage computation never divides by zero — a group with zero
maximum weight reports statistics percentage `0`, and a system with zero
total maximum weight reports a global percentage of `0` in the by-section
report. -/
theorem c5_sin_division_por_cero (g : GrupoCalificacion)
    (s : SistemaCalificacion) (hg : g.valor_maximo = 0)
    (hs : s.calcular_nota_total.2 = 0) :
    g.obtener_estadisticas.porcentaje = 0 ∧
    s.porcentaje_global_seccion = 0 := by
  constructor
  · simp [GrupoCalificacion.obtener_estadisticas, hg]
  · simp [SistemaCalificacion.porcentaje_global_seccion, hs]

/-- Witness for C5: a zero-weight group and the empty system. -/
theorem c5_sin_division_por_cero_witness :
    (GrupoCalificacion.init "x" 0).obtener_estadisticas.porcentaje = 0 ∧
    SistemaCalificacion.init.porcentaje_global_seccion = 0 :=
  c5_sin_division_por_cero (GrupoCalificacion.init "x" 0)
    SistemaCalificacion.init rfl rfl

/-- C7: when the total maximum weight is positive, the motivational message
of the full report is keyed on the global percentage with thresholds
inclusive at each tier's lower bound: `= 100`, `≥ 90`, `≥ 75`, `≥ 50`,
otherwise the lowest tier. -/
theorem c7_mensaje_por_umbral (s : SistemaCalificacion) (p : ℚ)
    (hv : 0 < s.calcular_nota_total.2)
    (hp : p = s.calcular_nota_total.1 / s.calcular_nota_total.2 * 100) :
    s.mensaje_resumen = some (mensaje_motivacional p) ∧
    (p = 100 → mensaje_motivacional p
      = "🌟 ¡PERFECTO! Todas las funciones implementadas correctamente.") ∧
    (90 ≤ p → p < 100 → mensaje_motivacional p
      = "🎉 ¡EXCELENTE! Casi perfecto.") ∧
    (75 ≤ p → p < 90 → mensaje_motivacional p
      = "👏 ¡MUY BIEN! Buen trabajo.") ∧
    (50 ≤ p → p < 75 → mensaje_motivacional p
      = "👍 Buen progreso. Sigue adelante.") ∧
    (p < 50 → mensaje_motivacional p
      = "💪 Continúa trabajando. ¡Tú puedes!") := by
  refine ⟨?_, ?_, ?_, ?_, ?_, ?_⟩
  · simp only [SistemaCalificacion.mensaje_resumen]
    rw [if_pos hv, ← hp]
  · intro h1
    simp only [mensaje_motivacional, if_pos h1]
  · intro h1 h2
    simp only [mensaje_motivacional]
    rw [if_neg (ne_of_lt h2), if_pos h1]
  · intro h1 h2
    have hne : p ≠ 100 := by intro h; rw [h] at h2; norm_num at h2
    simp only [mensaje_motivacional]
    rw [if_neg hne, if_neg (not_le.mpr h2), if_pos h1]
  · intro h1 h2
    have hne : p ≠ 100 := by intro h; rw [h] at h2; norm_num at h2
    have h90 : ¬ 90 ≤ p := by linarith
    simp only [mensaje_motivacional]
    rw [if_neg hne, if_neg h90, if_neg (not_le.mpr h2), if_pos h1]
  · intro h1
    have hne : p ≠ 100 := by intro h; rw [h] at h1; norm_num at h1
    have h90 : ¬ 90 ≤ p := by linarith
    have h75 : ¬ 75 ≤ p := by linarith
    simp only [mensaje_motivacional]
    rw [if_neg hne, if_neg h90, if_neg h75, if_neg (not_le.mpr h1)]

/-- System of the C7 witness: one group of weight 10 and no tests, so the
global percentage is `0`. -/
def sistemaEjemploC7 : SistemaCalificacion :=
  (SistemaCalificacion.init.crear_grupo "A" 10).1

/-- Witness for C7: the example system gets the lowest-tier message. -/
theorem c7_mensaje_por_umbral_witness :
    sistemaEjemploC7.mensaje_resumen
      = some "💪 Continúa trabajando. ¡Tú puedes!" := by
  have hnv : sistemaEjemploC7.calcular_nota_total = (0, 10) := by
    simp [sistemaEjemploC7, SistemaCalificacion.init,
      SistemaCalificacion.crear_grupo, buscarGrupo,
      SistemaCalificacion.calcular_nota_total, GrupoCalificacion.calcular_nota,
      GrupoCalificacion.init]
  have h := c7_mensaje_por_umbral sistemaEjemploC7
    (sistemaEjemploC7.calcular_nota_total.1
      / sistemaEjemploC7.calcular_nota_total.2 * 100)
    (by rw [hnv]; norm_num) rfl
  rw [h.1, h.2.2.2.2.2 (by rw [hnv]; norm_num)]

theorem sum_map_filter_add (l : List GrupoCalificacion)
    (p : GrupoCalificacion → Bool) (f : GrupoCalificacion → ℚ) :
    ((l.filter (fun g => !(p g))).map f).sum + ((l.filter p).map f).sum
      = (l.map f).sum := by
  induction l with
  | nil => simp
  | cons a l ih =>
      by_cases hp : p a <;> simp [List.filter_cons, hp] <;> linarith [ih]

/-- C8: the by-section report partitions the groups by an exact literal
match of the "Parte 2" name head — every group whose name starts with it is
in bucket B (`parte2`) and every other group in bucket A (`parte1`) — and
the two buckets' summed earned/maximum totals add up exactly to the
system's grand total. -/
theorem c8_particion_por_seccion (s : SistemaCalificacion) :
    (∀ g, g ∈ (s.recalcular_todos).parte2 ↔
      g ∈ (s.recalcular_todos).grupos ∧ g.nombre.startsWith "Parte 2" = true) ∧
    (∀ g, g ∈ (s.recalcular_todos).parte1 ↔
      g ∈ (s.recalcular_todos).grupos ∧ g.nombre.startsWith "Parte 2" = false) ∧
    nota_seccion (s.recalcular_todos).parte1
      + nota_seccion (s.recalcular_todos).parte2
      = (s.recalcular_todos).calcular_nota_total.1 ∧
    valor_seccion (s.recalcular_todos).parte1
      + valor_seccion (s.recalcular_todos).parte2
      = (s.recalcular_todos).calcular_nota_total.2 := by
  refine ⟨?_, ?_, ?_, ?_⟩
  · intro g
    simp [SistemaCalificacion.parte2, List.mem_filter]
  · intro g
    simp [SistemaCalificacion.parte1, List.mem_filter]
  · exact sum_map_filter_add (s.recalcular_todos).grupos
      (fun g => g.nombre.startsWith "Parte 2") (fun g => g.calcular_nota.1)
  · exact sum_map_filter_add (s.recalcular_todos).grupos
      (fun g => g.nombre.startsWith "Parte 2") (fun g => g.calcular_nota.2)

/-- System of the C8 witness: one "Parte 1" group and one "Parte 2" group. -/
def sistemaEjemploC8 : SistemaCalificacion :=
  (((SistemaCalificacion.init.crear_grupo "Parte 1: Vectores" 4).1).crear_grupo
    "Parte 2: Benchmarking" 6).1

/-- Witness for C8: the bucket totals of the example system add up to its
grand total. -/
theorem c8_particion_por_seccion_witness :
    nota_seccion (sistemaEjemploC8.recalcular_todos).parte1
      + nota_seccion (sistemaEjemploC8.recalcular_todos).parte2
      = (sistemaEjemploC8.recalcular_todos).calcular_nota_total.1 ∧
    valor_seccion (sistemaEjemploC8.recalcular_todos).parte1
      + valor_seccion (sistemaEjemploC8.recalcular_todos).parte2
      = (sistemaEjemploC8.recalcular_todos).calcular_nota_total.2 :=
  ⟨(c8_particion_por_seccion sistemaEjemploC8).2.2.1,
   (c8_particion_por_seccion sistemaEjemploC8).2.2.2⟩
